import Mathlib

/-!
# Verification of the dTwin MCP server's `dtwin_search` request compiler

Shallow embedding of the two revisions of `dtwin_search` found in the
repository:

* `Tools` models `src/tools/dtwin_search.py` (lowerCamelCase enum keys,
  canonical `{"function": {"command", "arguments"}}` envelope, called with
  `searchTerm` and `parameters` as separate named arguments);
* `Main` models `src/main.py` (PascalCase enum keys, envelope
  `{"functionName", "parameters": {"searchTerm", "paramters": {"Parameters"}}}`,
  called with a single `args` object).

Python runtime values are modelled by `PyVal`; Python `dict`s are association
lists with distinct keys (`dict.get` with a missing key yields `None`,
modelled by `dictGet`).  Raised `ValueError`s are modelled by
`PyError.valueError` carrying the message string, with f-string interpolation
of a value modelled by `pyStr` (Python's `str`/`repr` rendering).
-/

/-- A Python runtime value, as far as `dtwin_search` can observe it. -/
inductive PyVal where
  | none
  | str (s : String)
  | int (n : Int)
  | bool (b : Bool)
  | list (xs : List PyVal)
  | obj (fields : List (String × PyVal))

/-- Python truthiness (`bool(v)`): `None`, `""`, `0`, `False`, `[]` and
`{}` are falsy, everything else modelled here is truthy. -/
def pyTruthy : PyVal → Bool
  | .none => false
  | .str s => !(s == "")
  | .int n => !(n == 0)
  | .bool b => b
  | .list xs => !xs.isEmpty
  | .obj fs => !fs.isEmpty

mutual
/-- Python's `str(v)`, as used by f-string interpolation (`f"... {v}"`). -/
def pyStr : PyVal → String
  | .none => "None"
  | .str s => s
  | .int n => toString n
  | .bool b => if b then "True" else "False"
  | .list xs => "[" ++ pyReprSeq xs ++ "]"
  | .obj fs => "\x7b" ++ pyReprFields fs ++ "\x7d"

/-- Python's `repr(v)` (string quoting simplified to plain `\x27`-quotes). -/
def pyRepr : PyVal → String
  | .none => "None"
  | .str s => "\x27" ++ s ++ "\x27"
  | .int n => toString n
  | .bool b => if b then "True" else "False"
  | .list xs => "[" ++ pyReprSeq xs ++ "]"
  | .obj fs => "\x7b" ++ pyReprFields fs ++ "\x7d"

/-- Comma-separated `repr`s of the elements of a Python list. -/
def pyReprSeq : List PyVal → String
  | [] => ""
  | [x] => pyRepr x
  | x :: y :: xs => pyRepr x ++ ", " ++ pyReprSeq (y :: xs)

/-- Comma-separated `key: value` renderings of a Python dict's entries. -/
def pyReprFields : List (String × PyVal) → String
  | [] => ""
  | [(k, v)] => "\x27" ++ k ++ "\x27: " ++ pyRepr v
  | (k, v) :: f :: fs =>
    "\x27" ++ k ++ "\x27: " ++ pyRepr v ++ ", " ++ pyReprFields (f :: fs)
end

/-- Python `d.get(k)` on a dict modelled as an association list:
the stored value when the key is present, `None` otherwise. -/
def dictGet (d : List (String × PyVal)) (k : String) : PyVal :=
  match d.lookup k with
  | some v => v
  | Option.none => PyVal.none

/-- Python `s.lower()` restricted to the basic latin range
(each character mapped by `Char.toLower`). -/
def pyLower (s : String) : String := ⟨s.data.map Char.toLower⟩

/-- `_lower_or_none` from both revisions (the two source copies are
character-identical): `v.lower() if isinstance(v, str) else None`. -/
def _lower_or_none (v : PyVal) : PyVal :=
  match v with
  | .str s => .str (pyLower s)
  | _ => PyVal.none

/-- A raised Python `ValueError`, carrying its message. -/
inductive PyError where
  | valueError (msg : String)

namespace Tools

/-- `SEARCH_PARAMETER_ENUM` of `src/tools/dtwin_search.py` (lowerCamelCase). -/
def SEARCH_PARAMETER_ENUM : List (String × Int) :=
  [("entityType", 1), ("propertySet", 2), ("property", 3),
   ("classificationParameterSet", 4), ("classificationParameter", 5),
   ("storey", 6), ("distance", 7)]

/-- `SEARCH_OPERATOR_ENUM` of `src/tools/dtwin_search.py`. -/
def SEARCH_OPERATOR_ENUM : List (String × Int) :=
  [("equal", 1), ("notEqual", 2)]

/-- One iteration of the `for p in params_in` loop of
`src/tools/dtwin_search.py` (lines 189-205): check `p` is a dict, read
`parameter` and `operator` (the latter defaulting to the string `"Equal"`
when falsy), check enum membership in source order, and build the coded
output dict with lowerCamelCase keys. -/
def encodeOne (p : PyVal) : Except PyError PyVal :=
  match p with
  | .obj fields =>
    let pname := dictGet fields "parameter"
    let oname := if pyTruthy (dictGet fields "operator")
                 then dictGet fields "operator" else .str "Equal"
    match pname with
    | .str s =>
      (match SEARCH_PARAMETER_ENUM.lookup s with
       | some pcode =>
         (match oname with
          | .str o =>
            (match SEARCH_OPERATOR_ENUM.lookup o with
             | some ocode =>
               .ok (.obj [("parameter", .int pcode), ("operator", .int ocode),
                          ("key", _lower_or_none (dictGet fields "key")),
                          ("value", _lower_or_none (dictGet fields "value"))])
             | Option.none =>
               .error (.valueError ("Unknown operator enum: " ++ pyStr oname)))
          | _ => .error (.valueError ("Unknown operator enum: " ++ pyStr oname)))
       | Option.none =>
         .error (.valueError ("Unknown parameter enum: " ++ pyStr pname)))
    | _ => .error (.valueError ("Unknown parameter enum: " ++ pyStr pname))
  | _ => .error (.valueError "Each parameter must be an object.")

/-- The whole `for` loop: first failure aborts, otherwise the coded dicts
are accumulated in input order. -/
def encodeParams : List PyVal → Except PyError (List PyVal)
  | [] => .ok []
  | p :: rest =>
    match encodeOne p with
    | .error e => .error e
    | .ok q =>
      match encodeParams rest with
      | .error e => .error e
      | .ok qs => .ok (q :: qs)

/-- `dtwin_search` of `src/tools/dtwin_search.py` (lines 38-218): two named
arguments, re-packed into an `args` dict (`parameters or []`), then
`params_in = args.get("parameters") or []` with a list-shape check, the
validation/encoding loop, `search_term = args.get("searchTerm") or ""`, and
the canonical `function`/`command`/`arguments` envelope. -/
def dtwin_search (searchTerm : PyVal) (parameters : PyVal) :
    Except PyError PyVal :=
  let args : List (String × PyVal) :=
    [("searchTerm", searchTerm),
     ("parameters", if pyTruthy parameters then parameters else .list [])]
  let params_raw := dictGet args "parameters"
  match (if pyTruthy params_raw then
           match params_raw with
           | .list xs => Except.ok xs
           | _ => Except.error (PyError.valueError "`parameters` must be a list.")
         else Except.ok ([] : List PyVal)) with
  | .error e => .error e
  | .ok params_in =>
    match encodeParams params_in with
    | .error e => .error e
    | .ok out_params =>
      let search_term := if pyTruthy (dictGet args "searchTerm")
                         then dictGet args "searchTerm" else .str ""
      .ok (.obj [("function", .obj
             [("command", .str "search"),
              ("arguments", .obj
                [("searchTerm", search_term),
                 ("parameters", .list out_params)])])])

/-- The `arguments` object of a tools-revision payload, when shaped as such. -/
def payloadArguments (out : PyVal) : Option (List (String × PyVal)) :=
  match out with
  | .obj f =>
    match f.lookup "function" with
    | some (.obj g) =>
      match g.lookup "arguments" with
      | some (.obj a) => some a
      | _ => Option.none
    | _ => Option.none
  | _ => Option.none

/-- The `searchTerm` of a tools-revision payload. -/
def payloadSearchTerm (out : PyVal) : Option PyVal :=
  (payloadArguments out).bind (fun a => a.lookup "searchTerm")

/-- The coded filter list of a tools-revision payload. -/
def payloadParams (out : PyVal) : Option (List PyVal) :=
  match (payloadArguments out).bind (fun a => a.lookup "parameters") with
  | some (.list ps) => some ps
  | _ => Option.none

end Tools

namespace Main

/-- `SEARCH_PARAMETER_ENUM` of `src/main.py` (PascalCase). -/
def SEARCH_PARAMETER_ENUM : List (String × Int) :=
  [("EntityType", 1), ("PropertySet", 2), ("Property", 3),
   ("ClassificationParameterSet", 4), ("ClassificationParameter", 5),
   ("Storey", 6), ("Distance", 7)]

/-- `SEARCH_OPERATOR_ENUM` of `src/main.py`. -/
def SEARCH_OPERATOR_ENUM : List (String × Int) :=
  [("Equal", 1), ("NotEqual", 2)]

/-- One iteration of the `for p in params_in` loop of `src/main.py`
(lines 211-227); identical to the tools revision except for the PascalCase
registries and the PascalCase output keys. -/
def encodeOne (p : PyVal) : Except PyError PyVal :=
  match p with
  | .obj fields =>
    let pname := dictGet fields "parameter"
    let oname := if pyTruthy (dictGet fields "operator")
                 then dictGet fields "operator" else .str "Equal"
    match pname with
    | .str s =>
      (match SEARCH_PARAMETER_ENUM.lookup s with
       | some pcode =>
         (match oname with
          | .str o =>
            (match SEARCH_OPERATOR_ENUM.lookup o with
             | some ocode =>
               .ok (.obj [("Parameter", .int pcode), ("Operator", .int ocode),
                          ("Key", _lower_or_none (dictGet fields "key")),
                          ("Value", _lower_or_none (dictGet fields "value"))])
             | Option.none =>
               .error (.valueError ("Unknown operator enum: " ++ pyStr oname)))
          | _ => .error (.valueError ("Unknown operator enum: " ++ pyStr oname)))
       | Option.none =>
         .error (.valueError ("Unknown parameter enum: " ++ pyStr pname)))
    | _ => .error (.valueError ("Unknown parameter enum: " ++ pyStr pname))
  | _ => .error (.valueError "Each parameter must be an object.")

/-- The whole `for` loop of `src/main.py`. -/
def encodeParams : List PyVal → Except PyError (List PyVal)
  | [] => .ok []
  | p :: rest =>
    match encodeOne p with
    | .error e => .error e
    | .ok q =>
      match encodeParams rest with
      | .error e => .error e
      | .ok qs => .ok (q :: qs)

/-- `dtwin_search` of `src/main.py` (lines 102-240): a single `args` object
(must be a dict), `params_in = args.get("parameters") or []` with a
list-shape check, the validation/encoding loop, `search_term =
args.get("searchTerm") or ""`, and the
`functionName`/`parameters`/`paramters`/`Parameters` envelope. -/
def dtwin_search (args : PyVal) : Except PyError PyVal :=
  match args with
  | .obj a =>
    let params_raw := dictGet a "parameters"
    match (if pyTruthy params_raw then
             match params_raw with
             | .list xs => Except.ok xs
             | _ => Except.error (PyError.valueError "`parameters` must be a list.")
           else Except.ok ([] : List PyVal)) with
    | .error e => .error e
    | .ok params_in =>
      match encodeParams params_in with
      | .error e => .error e
      | .ok out_params =>
        let search_term := if pyTruthy (dictGet a "searchTerm")
                           then dictGet a "searchTerm" else .str ""
        .ok (.obj [("functionName", .str "search"),
                   ("parameters", .obj
                     [("searchTerm", search_term),
                      ("paramters", .obj
                        [("Parameters", .list out_params)])])])
  | _ => .error (.valueError "Tool expects a single object argument.")

/-- The inner `parameters` object of a main-revision payload. -/
def payloadInner (out : PyVal) : Option (List (String × PyVal)) :=
  match out with
  | .obj f =>
    match f.lookup "parameters" with
    | some (.obj g) => some g
    | _ => Option.none
  | _ => Option.none

/-- The `searchTerm` of a main-revision payload. -/
def payloadSearchTerm (out : PyVal) : Option PyVal :=
  (payloadInner out).bind (fun g => g.lookup "searchTerm")

/-- The coded filter list of a main-revision payload
(under `parameters`, the typo'd `paramters` and `Parameters`). -/
def payloadParams (out : PyVal) : Option (List PyVal) :=
  match (payloadInner out).bind (fun g => g.lookup "paramters") with
  | some (.obj h) =>
    match h.lookup "Parameters" with
    | some (.list ps) => some ps
    | _ => Option.none
  | _ => Option.none

end Main

/-- The top-level key list of a payload object. -/
def topKeys (v : PyVal) : List String :=
  match v with
  | .obj f => f.map Prod.fst
  | _ => []

/-! ## Helper lemmas -/

/-- `Char.ofNat` round-trips on small code points. -/
theorem char_toNat_ofNat_of_lt {n : Nat} (h : n < 55296) :
    (Char.ofNat n).toNat = n := by
  have hv : n.isValidChar := Or.inl h
  rw [Char.ofNat, dif_pos hv]
  simp [Char.ofNatAux, Char.toNat, UInt32.toNat]

/-- `Char.toLower` is idempotent. -/
theorem char_toLower_toLower (c : Char) : c.toLower.toLower = c.toLower := by
  unfold Char.toLower
  by_cases h : c.toNat ≥ 65 ∧ c.toNat ≤ 90
  · rw [if_pos h]
    have h1 : (Char.ofNat (c.toNat + 32)).toNat = c.toNat + 32 :=
      char_toNat_ofNat_of_lt (by omega)
    rw [h1, if_neg (by omega)]
  · rw [if_neg h, if_neg h]

/-- `pyLower` is idempotent. -/
theorem pyLower_pyLower (s : String) : pyLower (pyLower s) = pyLower s := by
  show (⟨(s.data.map Char.toLower).map Char.toLower⟩ : String) =
    ⟨s.data.map Char.toLower⟩
  rw [List.map_map,
    show Char.toLower ∘ Char.toLower = Char.toLower from funext char_toLower_toLower]

/-- A successful association-list lookup comes from a member pair. -/
theorem lookup_mem {s : String} {c : Int} :
    ∀ {l : List (String × Int)}, l.lookup s = some c → (s, c) ∈ l := by
  intro l
  induction l with
  | nil => intro h; simp at h
  | cons hd tl ih =>
    intro h
    obtain ⟨k, v⟩ := hd
    rw [List.lookup_cons] at h
    by_cases hk : s = k
    · subst hk
      simp only [beq_self_eq_true] at h
      cases h
      exact List.mem_cons_self _ _
    · have hbeq : (s == k) = false := by simp [hk]
      simp only [hbeq] at h
      exact List.mem_cons_of_mem _ (ih h)

/-- A key with a successful lookup is among the stored keys. -/
theorem lookup_isSome_mem {l : List (String × Int)} {s : String}
    (h : (l.lookup s).isSome = true) : s ∈ l.map Prod.fst := by
  obtain ⟨c, hc⟩ := Option.isSome_iff_exists.mp h
  exact List.mem_map_of_mem _ (lookup_mem hc)

/-- When the stored codes are pairwise distinct, lookup is injective on
names: two names resolving to the same code are equal. -/
theorem lookup_inj {l : List (String × Int)} (hnd : (l.map Prod.snd).Nodup)
    {s1 s2 : String} {c : Int}
    (h1 : l.lookup s1 = some c) (h2 : l.lookup s2 = some c) : s1 = s2 := by
  have m1 := lookup_mem h1
  have m2 := lookup_mem h2
  have heq : ((s1, c) : String × Int) = (s2, c) :=
    List.inj_on_of_nodup_map hnd m1 m2 rfl
  exact congrArg Prod.fst heq

/-- Python's membership test `v in reg` for a registry dict with string
keys: true exactly when `v` is a string equal to one of the keys. -/
def keyIn (v : PyVal) (reg : List (String × Int)) : Bool :=
  match v with
  | .str s => (reg.lookup s).isSome
  | _ => false


/-- A filter whose `parameter` value is not a registry key makes
`encodeOne` fail with the `Unknown parameter enum` message carrying the
rejected value. -/
theorem tools_encodeOne_badKind {fields : List (String × PyVal)}
    (h : keyIn (dictGet fields "parameter") Tools.SEARCH_PARAMETER_ENUM = false) :
    Tools.encodeOne (.obj fields) =
      .error (.valueError ("Unknown parameter enum: " ++
        pyStr (dictGet fields "parameter"))) := by
  cases hv : dictGet fields "parameter" with
  | str s =>
    rw [hv] at h
    simp only [keyIn] at h
    cases hls : Tools.SEARCH_PARAMETER_ENUM.lookup s with
    | none => simp [Tools.encodeOne, hv, hls]
    | some c => rw [hls] at h; simp at h
  | none => simp [Tools.encodeOne, hv]
  | int n => simp [Tools.encodeOne, hv]
  | bool b => simp [Tools.encodeOne, hv]
  | list xs => simp [Tools.encodeOne, hv]
  | obj fs => simp [Tools.encodeOne, hv]

/-- The loop fails with the first failing filter's error: filters before it
all encode successfully, and nothing after it is consulted. -/
theorem tools_encodeParams_first_error {e : PyError} :
    ∀ (pre : List PyVal) (bad : PyVal) (rest : List PyVal),
    (∀ p ∈ pre, ∃ q, Tools.encodeOne p = .ok q) →
    Tools.encodeOne bad = .error e →
    Tools.encodeParams (pre ++ bad :: rest) = .error e := by
  intro pre
  induction pre with
  | nil => intro bad rest _ hbad; simp [Tools.encodeParams, hbad]
  | cons hd tl ih =>
    intro bad rest hpre hbad
    obtain ⟨q, hq⟩ := hpre hd (List.mem_cons_self _ _)
    have hrec := ih bad rest (fun p hp => hpre p (List.mem_cons_of_mem _ hp)) hbad
    simp [Tools.encodeParams, hq, hrec]

/-- A list containing a filter with an unknown parameter kind never encodes:
the loop raises some error. -/
theorem tools_encodeParams_error_of_bad :
    ∀ {xs : List PyVal},
    (∃ p ∈ xs, ∃ fields, p = PyVal.obj fields ∧
      keyIn (dictGet fields "parameter") Tools.SEARCH_PARAMETER_ENUM = false) →
    ∃ e, Tools.encodeParams xs = .error e := by
  intro xs
  induction xs with
  | nil => rintro ⟨p, hp, -⟩; cases hp
  | cons hd tl ih =>
    rintro ⟨p, hp, fields, rfl, hbad⟩
    rcases List.mem_cons.mp hp with rfl | hmem
    · refine ⟨PyError.valueError ("Unknown parameter enum: " ++
        pyStr (dictGet fields "parameter")), ?_⟩
      simp [Tools.encodeParams, tools_encodeOne_badKind hbad]
    · cases hone : Tools.encodeOne hd with
      | error e => exact ⟨e, by simp [Tools.encodeParams, hone]⟩
      | ok q =>
        obtain ⟨e, he⟩ := ih ⟨_, hmem, fields, rfl, hbad⟩
        exact ⟨e, by simp [Tools.encodeParams, hone, he]⟩

/-- Reduction of the tools-revision `dtwin_search` to its validation /
encoding pipeline (pure unfolding). -/
theorem tools_dtwin_search_eq (stv psv : PyVal) :
    Tools.dtwin_search stv psv =
      (match (if pyTruthy (if pyTruthy psv then psv else .list []) then
                (match (if pyTruthy psv then psv else .list []) with
                 | .list xs => Except.ok xs
                 | _ => Except.error
                     (PyError.valueError "`parameters` must be a list."))
              else Except.ok ([] : List PyVal)) with
       | .error e => .error e
       | .ok params_in =>
         match Tools.encodeParams params_in with
         | .error e => .error e
         | .ok out_params =>
           .ok (.obj [("function", .obj
             [("command", .str "search"),
              ("arguments", .obj
                [("searchTerm", if pyTruthy stv then stv else .str ""),
                 ("parameters", .list out_params)])])])) := rfl

/-- A failing encoding loop fails the whole tools-revision call. -/
theorem tools_dtwin_search_list_error {stv : PyVal} {xs : List PyVal} {e : PyError}
    (h : Tools.encodeParams xs = Except.error e) :
    Tools.dtwin_search stv (.list xs) = .error e := by
  cases xs with
  | nil => simp [Tools.encodeParams] at h
  | cons a as =>
    rw [tools_dtwin_search_eq]
    show (match Tools.encodeParams (a :: as) with
          | .error e => (Except.error e : Except PyError PyVal)
          | .ok out_params =>
            .ok (.obj [("function", .obj
              [("command", .str "search"),
               ("arguments", .obj
                 [("searchTerm", if pyTruthy stv then stv else .str ""),
                  ("parameters", .list out_params)])])])) = .error e
    rw [h]



/-- Main-revision analogue of `tools_encodeOne_badKind`. -/
theorem main_encodeOne_badKind {fields : List (String × PyVal)}
    (h : keyIn (dictGet fields "parameter") Main.SEARCH_PARAMETER_ENUM = false) :
    Main.encodeOne (.obj fields) =
      .error (.valueError ("Unknown parameter enum: " ++
        pyStr (dictGet fields "parameter"))) := by
  cases hv : dictGet fields "parameter" with
  | str s =>
    rw [hv] at h
    simp only [keyIn] at h
    cases hls : Main.SEARCH_PARAMETER_ENUM.lookup s with
    | none => simp [Main.encodeOne, hv, hls]
    | some c => rw [hls] at h; simp at h
  | none => simp [Main.encodeOne, hv]
  | int n => simp [Main.encodeOne, hv]
  | bool b => simp [Main.encodeOne, hv]
  | list xs => simp [Main.encodeOne, hv]
  | obj fs => simp [Main.encodeOne, hv]

/-- Main-revision analogue of `tools_encodeParams_first_error`. -/
theorem main_encodeParams_first_error {e : PyError} :
    ∀ (pre : List PyVal) (bad : PyVal) (rest : List PyVal),
    (∀ p ∈ pre, ∃ q, Main.encodeOne p = .ok q) →
    Main.encodeOne bad = .error e →
    Main.encodeParams (pre ++ bad :: rest) = .error e := by
  intro pre
  induction pre with
  | nil => intro bad rest _ hbad; simp [Main.encodeParams, hbad]
  | cons hd tl ih =>
    intro bad rest hpre hbad
    obtain ⟨q, hq⟩ := hpre hd (List.mem_cons_self _ _)
    have hrec := ih bad rest (fun p hp => hpre p (List.mem_cons_of_mem _ hp)) hbad
    simp [Main.encodeParams, hq, hrec]

/-- Main-revision analogue of `tools_encodeParams_error_of_bad`. -/
theorem main_encodeParams_error_of_bad :
    ∀ {xs : List PyVal},
    (∃ p ∈ xs, ∃ fields, p = PyVal.obj fields ∧
      keyIn (dictGet fields "parameter") Main.SEARCH_PARAMETER_ENUM = false) →
    ∃ e, Main.encodeParams xs = .error e := by
  intro xs
  induction xs with
  | nil => rintro ⟨p, hp, -⟩; cases hp
  | cons hd tl ih =>
    rintro ⟨p, hp, fields, rfl, hbad⟩
    rcases List.mem_cons.mp hp with rfl | hmem
    · refine ⟨PyError.valueError ("Unknown parameter enum: " ++
        pyStr (dictGet fields "parameter")), ?_⟩
      simp [Main.encodeParams, main_encodeOne_badKind hbad]
    · cases hone : Main.encodeOne hd with
      | error e => exact ⟨e, by simp [Main.encodeParams, hone]⟩
      | ok q =>
        obtain ⟨e, he⟩ := ih ⟨_, hmem, fields, rfl, hbad⟩
        exact ⟨e, by simp [Main.encodeParams, hone, he]⟩

/-- Reduction of the main-revision `dtwin_search` on a dict argument to its
validation / encoding pipeline (pure unfolding). -/
theorem main_dtwin_search_obj_eq (a : List (String × PyVal)) :
    Main.dtwin_search (.obj a) =
      (match (if pyTruthy (dictGet a "parameters") then
                (match dictGet a "parameters" with
                 | .list xs => Except.ok xs
                 | _ => Except.error
                     (PyError.valueError "`parameters` must be a list."))
              else Except.ok ([] : List PyVal)) with
       | .error e => .error e
       | .ok params_in =>
         match Main.encodeParams params_in with
         | .error e => .error e
         | .ok out_params =>
           .ok (.obj [("functionName", .str "search"),
             ("parameters", .obj
               [("searchTerm", if pyTruthy (dictGet a "searchTerm")
                               then dictGet a "searchTerm" else .str ""),
                ("paramters", .obj
                  [("Parameters", .list out_params)])])])) := rfl

/-- A failing encoding loop fails the whole main-revision call. -/
theorem main_dtwin_search_list_error {a : List (String × PyVal)} {xs : List PyVal}
    {e : PyError} (hget : dictGet a "parameters" = .list xs)
    (h : Main.encodeParams xs = Except.error e) :
    Main.dtwin_search (.obj a) = .error e := by
  cases xs with
  | nil => simp [Main.encodeParams] at h
  | cons x ys =>
    rw [main_dtwin_search_obj_eq, hget]
    show (match Main.encodeParams (x :: ys) with
          | .error e => (Except.error e : Except PyError PyVal)
          | .ok out_params =>
            .ok (.obj [("functionName", .str "search"),
              ("parameters", .obj
                [("searchTerm", if pyTruthy (dictGet a "searchTerm")
                                then dictGet a "searchTerm" else .str ""),
                 ("paramters", .obj
                   [("Parameters", .list out_params)])])])) = .error e
    rw [h]


/-- The value is `None` or an already-lowercase string (a fixed point of
`pyLower`). -/
def lowerOrNull (v : PyVal) : Prop :=
  v = PyVal.none ∨ ∃ s, v = PyVal.str s ∧ pyLower s = s

/-- `_lower_or_none` always yields `None` or a lowercase string. -/
theorem lower_or_none_lowerOrNull (v : PyVal) : lowerOrNull (_lower_or_none v) := by
  cases v <;>
    first
      | exact Or.inl rfl
      | exact Or.inr ⟨_, rfl, pyLower_pyLower _⟩


/-- Codes stored in the tools-revision parameter registry lie in 1..7. -/
theorem tools_param_code_range {s : String} {c : Int}
    (h : Tools.SEARCH_PARAMETER_ENUM.lookup s = some c) : 1 ≤ c ∧ c ≤ 7 := by
  have hm := lookup_mem h
  simp only [Tools.SEARCH_PARAMETER_ENUM, List.mem_cons, Prod.mk.injEq,
    List.not_mem_nil, or_false] at hm
  rcases hm with ⟨-, rfl⟩ | ⟨-, rfl⟩ | ⟨-, rfl⟩ | ⟨-, rfl⟩ | ⟨-, rfl⟩ |
    ⟨-, rfl⟩ | ⟨-, rfl⟩ <;> omega

/-- Codes stored in the tools-revision operator registry are 1 or 2. -/
theorem tools_op_code_range {s : String} {c : Int}
    (h : Tools.SEARCH_OPERATOR_ENUM.lookup s = some c) : c = 1 ∨ c = 2 := by
  have hm := lookup_mem h
  simp only [Tools.SEARCH_OPERATOR_ENUM, List.mem_cons, Prod.mk.injEq,
    List.not_mem_nil, or_false] at hm
  rcases hm with ⟨-, rfl⟩ | ⟨-, rfl⟩ <;> omega

/-- Well-formedness of one coded output filter of the tools revision:
exactly the four lowerCamelCase fields, parameter code in 1..7, operator
code in `{1, 2}`, key and value null-or-lowercase. -/
def Tools.goodOutParam (q : PyVal) : Prop :=
  ∃ (pc oc : Int) (kv vv : PyVal),
    q = PyVal.obj [("parameter", .int pc), ("operator", .int oc),
                   ("key", kv), ("value", vv)] ∧
    1 ≤ pc ∧ pc ≤ 7 ∧ (oc = 1 ∨ oc = 2) ∧ lowerOrNull kv ∧ lowerOrNull vv

/-- Every successful `encodeOne` produces a well-formed coded filter. -/
theorem tools_encodeOne_ok_good {p q : PyVal} (h : Tools.encodeOne p = .ok q) :
    Tools.goodOutParam q := by
  cases p with
  | obj fields =>
    simp only [Tools.encodeOne] at h
    split at h <;> try exact Except.noConfusion h
    split at h <;> try exact Except.noConfusion h
    split at h <;> try exact Except.noConfusion h
    split at h <;> try exact Except.noConfusion h
    injection h with h
    subst h
    rename_i v1 s1 hpn x1 pcode hlk v2 s2 hop x2 ocode holk
    obtain ⟨hp1, hp2⟩ := tools_param_code_range hlk
    exact ⟨pcode, ocode, _, _, rfl, hp1, hp2, tools_op_code_range holk,
      lower_or_none_lowerOrNull _, lower_or_none_lowerOrNull _⟩
  | none => exact Except.noConfusion h
  | str s => exact Except.noConfusion h
  | int n => exact Except.noConfusion h
  | bool b => exact Except.noConfusion h
  | list xs => exact Except.noConfusion h

/-- A successful loop returns one coded filter per input filter, in input
order. -/
theorem tools_encodeParams_ok_pointwise :
    ∀ {xs ys : List PyVal}, Tools.encodeParams xs = .ok ys →
      ys.length = xs.length ∧
      ∀ i (hi : i < xs.length) (hj : i < ys.length),
        Tools.encodeOne (xs.get ⟨i, hi⟩) = .ok (ys.get ⟨i, hj⟩) := by
  intro xs
  induction xs with
  | nil =>
    intro ys h
    simp only [Tools.encodeParams] at h
    injection h with h
    subst h
    exact ⟨rfl, fun i hi => absurd hi (by simp)⟩
  | cons a as ih =>
    intro ys h
    cases h1 : Tools.encodeOne a with
    | error e => simp [Tools.encodeParams, h1] at h
    | ok q =>
      cases h2 : Tools.encodeParams as with
      | error e => simp [Tools.encodeParams, h1, h2] at h
      | ok qs =>
        simp only [Tools.encodeParams, h1, h2] at h
        injection h with h
        subst h
        obtain ⟨hlen, hpt⟩ := ih h2
        refine ⟨by simp [hlen], ?_⟩
        intro i hi hj
        cases i with
        | zero => simpa using h1
        | succ n =>
          simpa using hpt n (by simpa using hi) (by simpa using hj)

/-- Every coded filter of a successful loop is well-formed. -/
theorem tools_encodeParams_ok_good :
    ∀ {xs ys : List PyVal}, Tools.encodeParams xs = .ok ys →
      ∀ q ∈ ys, Tools.goodOutParam q := by
  intro xs
  induction xs with
  | nil =>
    intro ys h
    simp only [Tools.encodeParams] at h
    injection h with h
    subst h
    intro q hq
    cases hq
  | cons a as ih =>
    intro ys h
    cases h1 : Tools.encodeOne a with
    | error e => simp [Tools.encodeParams, h1] at h
    | ok q =>
      cases h2 : Tools.encodeParams as with
      | error e => simp [Tools.encodeParams, h1, h2] at h
      | ok qs =>
        simp only [Tools.encodeParams, h1, h2] at h
        injection h with h
        subst h
        intro r hr
        rcases List.mem_cons.mp hr with rfl | hmem
        · exact tools_encodeOne_ok_good h1
        · exact ih h2 r hmem

/-- A successful loop lets the tools-revision call succeed with the
canonical envelope around its output. -/
theorem tools_dtwin_search_list_ok {stv : PyVal} {xs ps : List PyVal}
    (h : Tools.encodeParams xs = Except.ok ps) :
    Tools.dtwin_search stv (.list xs) =
      .ok (.obj [("function", .obj
        [("command", .str "search"),
         ("arguments", .obj
           [("searchTerm", if pyTruthy stv then stv else .str ""),
            ("parameters", .list ps)])])]) := by
  cases xs with
  | nil =>
    simp only [Tools.encodeParams] at h
    injection h with h
    subst h
    rfl
  | cons a as =>
    rw [tools_dtwin_search_eq]
    show (match Tools.encodeParams (a :: as) with
          | .error e => (Except.error e : Except PyError PyVal)
          | .ok out_params =>
            .ok (.obj [("function", .obj
              [("command", .str "search"),
               ("arguments", .obj
                 [("searchTerm", if pyTruthy stv then stv else .str ""),
                  ("parameters", .list out_params)])])])) = _
    rw [h]

/-- Inversion: a successful tools-revision call on a filter list comes from
a successful loop, and returns exactly the canonical envelope. -/
theorem tools_dtwin_search_list_ok_inv {stv : PyVal} {xs : List PyVal} {out : PyVal}
    (h : Tools.dtwin_search stv (.list xs) = .ok out) :
    ∃ ps, Tools.encodeParams xs = .ok ps ∧
      out = PyVal.obj [("function", .obj
        [("command", .str "search"),
         ("arguments", .obj
           [("searchTerm", if pyTruthy stv then stv else .str ""),
            ("parameters", .list ps)])])] := by
  cases hps : Tools.encodeParams xs with
  | error e => rw [tools_dtwin_search_list_error hps] at h; exact Except.noConfusion h
  | ok ps =>
    rw [tools_dtwin_search_list_ok hps] at h
    injection h with h
    exact ⟨ps, rfl, h.symm⟩




/-- The canonical tools-revision response envelope (the `response` literal
of `src/tools/dtwin_search.py`, lines 209-217). -/
def Tools.envelope (st : PyVal) (ps : List PyVal) : PyVal :=
  .obj [("function", .obj
    [("command", .str "search"),
     ("arguments", .obj
       [("searchTerm", st), ("parameters", .list ps)])])]

/-- The main-revision response envelope (the `response` literal of
`src/main.py`, lines 231-239, with the typo'd `paramters` key). -/
def Main.envelope (st : PyVal) (ps : List PyVal) : PyVal :=
  .obj [("functionName", .str "search"),
    ("parameters", .obj
      [("searchTerm", st),
       ("paramters", .obj [("Parameters", .list ps)])])]


/-- Reading the filter list back out of a canonical envelope. -/
theorem tools_payloadParams_envelope (st : PyVal) (ps : List PyVal) :
    Tools.payloadParams (Tools.envelope st ps) = some ps := rfl

/-- Reading the search term back out of a canonical envelope. -/
theorem tools_payloadSearchTerm_envelope (st : PyVal) (ps : List PyVal) :
    Tools.payloadSearchTerm (Tools.envelope st ps) = some st := rfl

/-- Every tools-revision call either raises or returns the canonical
envelope around the coded filters, with the `or`-coalesced search term. -/
theorem tools_dtwin_search_cases (stv psv : PyVal) :
    (∃ e, Tools.dtwin_search stv psv = .error e) ∨
    (∃ ps, Tools.dtwin_search stv psv =
      .ok (Tools.envelope (if pyTruthy stv then stv else .str "") ps)) := by
  rw [tools_dtwin_search_eq]
  cases hpi : (if pyTruthy (if pyTruthy psv then psv else .list []) then
                 (match (if pyTruthy psv then psv else .list []) with
                  | .list xs => Except.ok xs
                  | _ => Except.error
                      (PyError.valueError "`parameters` must be a list."))
               else Except.ok ([] : List PyVal)) with
  | error e => exact Or.inl ⟨e, rfl⟩
  | ok params_in =>
    cases hps : Tools.encodeParams params_in with
    | error e =>
      refine Or.inl ⟨e, ?_⟩
      show (match Tools.encodeParams params_in with
            | .error e => (Except.error e : Except PyError PyVal)
            | .ok out_params =>
              .ok (.obj [("function", .obj
                [("command", .str "search"),
                 ("arguments", .obj
                   [("searchTerm", if pyTruthy stv then stv else .str ""),
                    ("parameters", .list out_params)])])])) = .error e
      rw [hps]
    | ok ps =>
      refine Or.inr ⟨ps, ?_⟩
      show (match Tools.encodeParams params_in with
            | .error e => (Except.error e : Except PyError PyVal)
            | .ok out_params =>
              .ok (.obj [("function", .obj
                [("command", .str "search"),
                 ("arguments", .obj
                   [("searchTerm", if pyTruthy stv then stv else .str ""),
                    ("parameters", .list out_params)])])])) = _
      rw [hps]
      rfl

/-- Inversion: every successful tools-revision call returns the canonical
envelope, and its search term is the input coalesced by `or ""`. -/
theorem tools_dtwin_search_ok_inv {stv psv out : PyVal}
    (h : Tools.dtwin_search stv psv = .ok out) :
    ∃ ps, out = Tools.envelope (if pyTruthy stv then stv else .str "") ps := by
  rcases tools_dtwin_search_cases stv psv with ⟨e, he⟩ | ⟨ps, hok⟩
  · rw [he] at h; exact Except.noConfusion h
  · rw [hok] at h; injection h with h; exact ⟨ps, h.symm⟩



/-- Reading the filter list back out of a main-revision envelope. -/
theorem main_payloadParams_envelope (st : PyVal) (ps : List PyVal) :
    Main.payloadParams (Main.envelope st ps) = some ps := rfl

/-- Reading the search term back out of a main-revision envelope. -/
theorem main_payloadSearchTerm_envelope (st : PyVal) (ps : List PyVal) :
    Main.payloadSearchTerm (Main.envelope st ps) = some st := rfl

/-- Codes stored in the main-revision parameter registry lie in 1..7. -/
theorem main_param_code_range {s : String} {c : Int}
    (h : Main.SEARCH_PARAMETER_ENUM.lookup s = some c) : 1 ≤ c ∧ c ≤ 7 := by
  have hm := lookup_mem h
  simp only [Main.SEARCH_PARAMETER_ENUM, List.mem_cons, Prod.mk.injEq,
    List.not_mem_nil, or_false] at hm
  rcases hm with ⟨-, rfl⟩ | ⟨-, rfl⟩ | ⟨-, rfl⟩ | ⟨-, rfl⟩ | ⟨-, rfl⟩ |
    ⟨-, rfl⟩ | ⟨-, rfl⟩ <;> omega

/-- Codes stored in the main-revision operator registry are 1 or 2. -/
theorem main_op_code_range {s : String} {c : Int}
    (h : Main.SEARCH_OPERATOR_ENUM.lookup s = some c) : c = 1 ∨ c = 2 := by
  have hm := lookup_mem h
  simp only [Main.SEARCH_OPERATOR_ENUM, List.mem_cons, Prod.mk.injEq,
    List.not_mem_nil, or_false] at hm
  rcases hm with ⟨-, rfl⟩ | ⟨-, rfl⟩ <;> omega

/-- Well-formedness of one coded output filter of the main revision:
exactly the four PascalCase fields, parameter code in 1..7, operator code
in `{1, 2}`, key and value null-or-lowercase. -/
def Main.goodOutParam (q : PyVal) : Prop :=
  ∃ (pc oc : Int) (kv vv : PyVal),
    q = PyVal.obj [("Parameter", .int pc), ("Operator", .int oc),
                   ("Key", kv), ("Value", vv)] ∧
    1 ≤ pc ∧ pc ≤ 7 ∧ (oc = 1 ∨ oc = 2) ∧ lowerOrNull kv ∧ lowerOrNull vv

/-- Every successful main-revision `encodeOne` produces a well-formed coded
filter. -/
theorem main_encodeOne_ok_good {p q : PyVal} (h : Main.encodeOne p = .ok q) :
    Main.goodOutParam q := by
  cases p with
  | obj fields =>
    simp only [Main.encodeOne] at h
    split at h <;> try exact Except.noConfusion h
    split at h <;> try exact Except.noConfusion h
    split at h <;> try exact Except.noConfusion h
    split at h <;> try exact Except.noConfusion h
    injection h with h
    subst h
    rename_i v1 s1 hpn x1 pcode hlk v2 s2 hop x2 ocode holk
    obtain ⟨hp1, hp2⟩ := main_param_code_range hlk
    exact ⟨pcode, ocode, _, _, rfl, hp1, hp2, main_op_code_range holk,
      lower_or_none_lowerOrNull _, lower_or_none_lowerOrNull _⟩
  | none => exact Except.noConfusion h
  | str s => exact Except.noConfusion h
  | int n => exact Except.noConfusion h
  | bool b => exact Except.noConfusion h
  | list xs => exact Except.noConfusion h

/-- A successful main-revision loop returns one coded filter per input
filter, in input order. -/
theorem main_encodeParams_ok_pointwise :
    ∀ {xs ys : List PyVal}, Main.encodeParams xs = .ok ys →
      ys.length = xs.length ∧
      ∀ i (hi : i < xs.length) (hj : i < ys.length),
        Main.encodeOne (xs.get ⟨i, hi⟩) = .ok (ys.get ⟨i, hj⟩) := by
  intro xs
  induction xs with
  | nil =>
    intro ys h
    simp only [Main.encodeParams] at h
    injection h with h
    subst h
    exact ⟨rfl, fun i hi => absurd hi (by simp)⟩
  | cons a as ih =>
    intro ys h
    cases h1 : Main.encodeOne a with
    | error e => simp [Main.encodeParams, h1] at h
    | ok q =>
      cases h2 : Main.encodeParams as with
      | error e => simp [Main.encodeParams, h1, h2] at h
      | ok qs =>
        simp only [Main.encodeParams, h1, h2] at h
        injection h with h
        subst h
        obtain ⟨hlen, hpt⟩ := ih h2
        refine ⟨by simp [hlen], ?_⟩
        intro i hi hj
        cases i with
        | zero => simpa using h1
        | succ n =>
          simpa using hpt n (by simpa using hi) (by simpa using hj)

/-- Every coded filter of a successful main-revision loop is well-formed. -/
theorem main_encodeParams_ok_good :
    ∀ {xs ys : List PyVal}, Main.encodeParams xs = .ok ys →
      ∀ q ∈ ys, Main.goodOutParam q := by
  intro xs
  induction xs with
  | nil =>
    intro ys h
    simp only [Main.encodeParams] at h
    injection h with h
    subst h
    intro q hq
    cases hq
  | cons a as ih =>
    intro ys h
    cases h1 : Main.encodeOne a with
    | error e => simp [Main.encodeParams, h1] at h
    | ok q =>
      cases h2 : Main.encodeParams as with
      | error e => simp [Main.encodeParams, h1, h2] at h
      | ok qs =>
        simp only [Main.encodeParams, h1, h2] at h
        injection h with h
        subst h
        intro r hr
        rcases List.mem_cons.mp hr with rfl | hmem
        · exact main_encodeOne_ok_good h1
        · exact ih h2 r hmem

/-- A successful loop lets the main-revision call succeed with its envelope
around the coded filters. -/
theorem main_dtwin_search_list_ok {a : List (String × PyVal)} {xs ps : List PyVal}
    (hget : dictGet a "parameters" = .list xs)
    (h : Main.encodeParams xs = Except.ok ps) :
    Main.dtwin_search (.obj a) =
      .ok (Main.envelope (if pyTruthy (dictGet a "searchTerm")
                          then dictGet a "searchTerm" else .str "") ps) := by
  rw [main_dtwin_search_obj_eq, hget]
  cases xs with
  | nil =>
    simp only [Main.encodeParams] at h
    injection h with h
    subst h
    rfl
  | cons x ys =>
    show (match Main.encodeParams (x :: ys) with
          | .error e => (Except.error e : Except PyError PyVal)
          | .ok out_params =>
            .ok (.obj [("functionName", .str "search"),
              ("parameters", .obj
                [("searchTerm", if pyTruthy (dictGet a "searchTerm")
                                then dictGet a "searchTerm" else .str ""),
                 ("paramters", .obj
                   [("Parameters", .list out_params)])])])) = _
    rw [h]
    rfl

/-- Every main-revision call on a dict argument either raises or returns
its envelope around the coded filters. -/
theorem main_dtwin_search_obj_cases (a : List (String × PyVal)) :
    (∃ e, Main.dtwin_search (.obj a) = .error e) ∨
    (∃ ps, Main.dtwin_search (.obj a) =
      .ok (Main.envelope (if pyTruthy (dictGet a "searchTerm")
                          then dictGet a "searchTerm" else .str "") ps)) := by
  rw [main_dtwin_search_obj_eq]
  cases hpi : (if pyTruthy (dictGet a "parameters") then
                 (match dictGet a "parameters" with
                  | .list xs => Except.ok xs
                  | _ => Except.error
                      (PyError.valueError "`parameters` must be a list."))
               else Except.ok ([] : List PyVal)) with
  | error e => exact Or.inl ⟨e, rfl⟩
  | ok params_in =>
    cases hps : Main.encodeParams params_in with
    | error e =>
      refine Or.inl ⟨e, ?_⟩
      show (match Main.encodeParams params_in with
            | .error e => (Except.error e : Except PyError PyVal)
            | .ok out_params =>
              .ok (.obj [("functionName", .str "search"),
                ("parameters", .obj
                  [("searchTerm", if pyTruthy (dictGet a "searchTerm")
                                  then dictGet a "searchTerm" else .str ""),
                   ("paramters", .obj
                     [("Parameters", .list out_params)])])])) = .error e
      rw [hps]
    | ok ps =>
      refine Or.inr ⟨ps, ?_⟩
      show (match Main.encodeParams params_in with
            | .error e => (Except.error e : Except PyError PyVal)
            | .ok out_params =>
              .ok (.obj [("functionName", .str "search"),
                ("parameters", .obj
                  [("searchTerm", if pyTruthy (dictGet a "searchTerm")
                                  then dictGet a "searchTerm" else .str ""),
                   ("paramters", .obj
                     [("Parameters", .list out_params)])])])) = _
      rw [hps]
      rfl

/-- Inversion: every successful main-revision call has a dict argument and
returns the main-revision envelope, with the `or`-coalesced search term. -/
theorem main_dtwin_search_ok_inv {args out : PyVal}
    (h : Main.dtwin_search args = .ok out) :
    ∃ a ps, args = .obj a ∧
      out = Main.envelope (if pyTruthy (dictGet a "searchTerm")
                           then dictGet a "searchTerm" else .str "") ps := by
  cases args with
  | obj a =>
    rcases main_dtwin_search_obj_cases a with ⟨e, he⟩ | ⟨ps, hok⟩
    · rw [he] at h; exact Except.noConfusion h
    · rw [hok] at h; injection h with h; exact ⟨a, ps, rfl, h.symm⟩
  | none => exact Except.noConfusion h
  | str s => exact Except.noConfusion h
  | int n => exact Except.noConfusion h
  | bool b => exact Except.noConfusion h
  | list xs => exact Except.noConfusion h


/-- The tools-revision `encodeOne` depends only on the four read fields
`parameter`, `operator`, `key` and `value`: any other field is ignored. -/
theorem tools_encodeOne_congr {f1 f2 : List (String × PyVal)}
    (hp : dictGet f1 "parameter" = dictGet f2 "parameter")
    (ho : dictGet f1 "operator" = dictGet f2 "operator")
    (hk : dictGet f1 "key" = dictGet f2 "key")
    (hv : dictGet f1 "value" = dictGet f2 "value") :
    Tools.encodeOne (.obj f1) = Tools.encodeOne (.obj f2) := by
  simp only [Tools.encodeOne, hp, ho, hk, hv]

/-- The main-revision `encodeOne` depends only on the four read fields. -/
theorem main_encodeOne_congr {f1 f2 : List (String × PyVal)}
    (hp : dictGet f1 "parameter" = dictGet f2 "parameter")
    (ho : dictGet f1 "operator" = dictGet f2 "operator")
    (hk : dictGet f1 "key" = dictGet f2 "key")
    (hv : dictGet f1 "value" = dictGet f2 "value") :
    Main.encodeOne (.obj f1) = Main.encodeOne (.obj f2) := by
  simp only [Main.encodeOne, hp, ho, hk, hv]


/-- Inversion: a successful main-revision call whose `parameters` entry is
a list comes from a successful loop on that list. -/
theorem main_dtwin_search_list_ok_inv {a : List (String × PyVal)}
    {xs : List PyVal} {out : PyVal}
    (hget : dictGet a "parameters" = .list xs)
    (h : Main.dtwin_search (.obj a) = .ok out) :
    ∃ ps, Main.encodeParams xs = .ok ps ∧
      out = Main.envelope (if pyTruthy (dictGet a "searchTerm")
                           then dictGet a "searchTerm" else .str "") ps := by
  cases hps : Main.encodeParams xs with
  | error e =>
    rw [main_dtwin_search_list_error hget hps] at h
    exact Except.noConfusion h
  | ok ps =>
    rw [main_dtwin_search_list_ok hget hps] at h
    injection h with h
    exact ⟨ps, rfl, h.symm⟩

/-! ## Claim theorems -/

/-- **C1** (counterexample): the claim says the returned `searchTerm` is the
lowercase form of the input (`"Wall"` becoming `"wall"`).  In both
revisions the input `"Wall"` is passed through unchanged: the output
`searchTerm` is `"Wall"`, and `"Wall"` differs from its lowercase form
`"wall"`. -/
theorem C1_counterexample :
    Tools.dtwin_search (.str "Wall") (.list []) =
      .ok (Tools.envelope (.str "Wall") []) ∧
    Tools.payloadSearchTerm (Tools.envelope (.str "Wall") []) =
      some (.str "Wall") ∧
    Main.dtwin_search (.obj [("searchTerm", .str "Wall")]) =
      .ok (Main.envelope (.str "Wall") []) ∧
    Main.payloadSearchTerm (Main.envelope (.str "Wall") []) =
      some (.str "Wall") ∧
    pyLower "Wall" = "wall" ∧
    ("Wall" : String) ≠ "wall" :=
  ⟨rfl, rfl, rfl, rfl, rfl, by decide⟩

/-- **C1** (amended): in both revisions the returned `searchTerm` equals
the caller-supplied `searchTerm` string unchanged (no lowercasing is
applied by the tool), and equals `""` when `searchTerm` is absent. -/
theorem C1_amended :
    (∀ (s : String) (psv out : PyVal),
      Tools.dtwin_search (.str s) psv = .ok out →
      Tools.payloadSearchTerm out = some (.str s)) ∧
    (∀ (psv out : PyVal),
      Tools.dtwin_search PyVal.none psv = .ok out →
      Tools.payloadSearchTerm out = some (.str "")) ∧
    (∀ (s : String) (pv out : PyVal),
      Main.dtwin_search (.obj [("searchTerm", .str s), ("parameters", pv)]) =
        .ok out →
      Main.payloadSearchTerm out = some (.str s)) ∧
    (∀ (pv out : PyVal),
      Main.dtwin_search (.obj [("parameters", pv)]) = .ok out →
      Main.payloadSearchTerm out = some (.str "")) := by
  have hcoal : ∀ s : String,
      (if pyTruthy (PyVal.str s) then PyVal.str s else .str "") = .str s := by
    intro s
    by_cases hs : s = ""
    · subst hs; rfl
    · simp [pyTruthy, hs]
  refine ⟨?_, ?_, ?_, ?_⟩
  · intro s psv out h
    obtain ⟨ps, rfl⟩ := tools_dtwin_search_ok_inv h
    rw [tools_payloadSearchTerm_envelope, hcoal]
  · intro psv out h
    obtain ⟨ps, rfl⟩ := tools_dtwin_search_ok_inv h
    rw [tools_payloadSearchTerm_envelope]
    rfl
  · intro s pv out h
    obtain ⟨a, ps, ha, rfl⟩ := main_dtwin_search_ok_inv h
    injection ha with ha
    subst ha
    rw [main_payloadSearchTerm_envelope]
    show some (if pyTruthy (PyVal.str s) then PyVal.str s else .str "") = _
    rw [hcoal]
  · intro pv out h
    obtain ⟨a, ps, ha, rfl⟩ := main_dtwin_search_ok_inv h
    injection ha with ha
    subst ha
    rw [main_payloadSearchTerm_envelope]
    rfl

/-- **C1** witness: the amended statement applied at `searchTerm = "Door"`
(tools revision) and at an absent `searchTerm` (main revision). -/
theorem C1_witness :
    Tools.payloadSearchTerm (Tools.envelope (.str "Door") []) =
      some (.str "Door") ∧
    Main.payloadSearchTerm (Main.envelope (.str "") []) = some (.str "") :=
  ⟨C1_amended.1 "Door" (.list []) (Tools.envelope (.str "Door") []) rfl,
   C1_amended.2.2.2 (.list []) (Main.envelope (.str "") []) rfl⟩

/-- **C2**: evaluation at the failing input.  In the tools revision
(`src/tools/dtwin_search.py`) a filter with `operator` omitted is rejected:
the fallback default is the string `"Equal"`, which is not a key of that
revision's `SEARCH_OPERATOR_ENUM` (`"equal"`/`"notEqual"`), so the call
raises `Unknown operator enum: Equal` instead of defaulting to code 1.
The main revision defaults to code 1 as documented. -/
theorem C2_default_operator_eval :
    Tools.dtwin_search PyVal.none
      (.list [.obj [("parameter", .str "property")]]) =
      .error (.valueError "Unknown operator enum: Equal") ∧
    Main.dtwin_search (.obj [("parameters", .list [.obj
      [("parameter", .str "Property")]])]) =
      .ok (Main.envelope (.str "")
        [.obj [("Parameter", .int 3), ("Operator", .int 1),
               ("Key", PyVal.none), ("Value", PyVal.none)]]) :=
  ⟨rfl, rfl⟩

/-- **C3** (counterexample): the two revisions do not accept the same
spellings, and matching is not case-insensitive: `"EntityType"` resolves in
the main revision but is rejected by the tools revision, and the
all-lowercase variant `"entitytype"` resolves in neither. -/
theorem C3_counterexample :
    (Main.SEARCH_PARAMETER_ENUM.lookup "EntityType").isSome = true ∧
    (Tools.SEARCH_PARAMETER_ENUM.lookup "EntityType").isSome = false ∧
    Main.dtwin_search (.obj [("parameters", .list [.obj
      [("parameter", .str "EntityType"), ("operator", .str "Equal")]])]) =
      .ok (Main.envelope (.str "")
        [.obj [("Parameter", .int 1), ("Operator", .int 1),
               ("Key", PyVal.none), ("Value", PyVal.none)]]) ∧
    Tools.dtwin_search PyVal.none (.list [.obj
      [("parameter", .str "EntityType"), ("operator", .str "equal")]]) =
      .error (.valueError "Unknown parameter enum: EntityType") ∧
    (Tools.SEARCH_PARAMETER_ENUM.lookup "entitytype").isSome = false ∧
    (Main.SEARCH_PARAMETER_ENUM.lookup "entitytype").isSome = false :=
  ⟨rfl, rfl, rfl, rfl, rfl, rfl⟩

/-- **C3** (amended): each revision resolves names by case-sensitive exact
match against its own registry, and the two registries use disjoint
casings: no parameter-kind or operator spelling accepted by one revision
is accepted by the other. -/
theorem C3_amended :
    ∀ s : String,
      ((Tools.SEARCH_PARAMETER_ENUM.lookup s).isSome = true →
        (Main.SEARCH_PARAMETER_ENUM.lookup s).isSome = false) ∧
      ((Main.SEARCH_PARAMETER_ENUM.lookup s).isSome = true →
        (Tools.SEARCH_PARAMETER_ENUM.lookup s).isSome = false) ∧
      ((Tools.SEARCH_OPERATOR_ENUM.lookup s).isSome = true →
        (Main.SEARCH_OPERATOR_ENUM.lookup s).isSome = false) ∧
      ((Main.SEARCH_OPERATOR_ENUM.lookup s).isSome = true →
        (Tools.SEARCH_OPERATOR_ENUM.lookup s).isSome = false) := by
  intro s
  refine ⟨?_, ?_, ?_, ?_⟩ <;> intro h <;> have hm := lookup_isSome_mem h
  · simp only [Tools.SEARCH_PARAMETER_ENUM, List.map_cons, List.map_nil,
      List.mem_cons, List.not_mem_nil, or_false] at hm
    rcases hm with rfl | rfl | rfl | rfl | rfl | rfl | rfl <;> rfl
  · simp only [Main.SEARCH_PARAMETER_ENUM, List.map_cons, List.map_nil,
      List.mem_cons, List.not_mem_nil, or_false] at hm
    rcases hm with rfl | rfl | rfl | rfl | rfl | rfl | rfl <;> rfl
  · simp only [Tools.SEARCH_OPERATOR_ENUM, List.map_cons, List.map_nil,
      List.mem_cons, List.not_mem_nil, or_false] at hm
    rcases hm with rfl | rfl <;> rfl
  · simp only [Main.SEARCH_OPERATOR_ENUM, List.map_cons, List.map_nil,
      List.mem_cons, List.not_mem_nil, or_false] at hm
    rcases hm with rfl | rfl <;> rfl

/-- **C3** witness: the amended statement applied to `"entityType"`
(accepted only by the tools revision) and `"EntityType"` (accepted only by
the main revision). -/
theorem C3_witness :
    (Main.SEARCH_PARAMETER_ENUM.lookup "entityType").isSome = false ∧
    (Tools.SEARCH_PARAMETER_ENUM.lookup "EntityType").isSome = false :=
  ⟨(C3_amended "entityType").1 rfl, (C3_amended "EntityType").2.1 rfl⟩

/-- **C4** (counterexample): on the empty request, the tools revision
returns the canonical `{"function": ...}` envelope while the main revision
returns `{"functionName": ..., "parameters": ...}`: the top-level key sets
differ, so the shape is not identical across the two revisions. -/
theorem C4_counterexample :
    Tools.dtwin_search PyVal.none (.list []) =
      .ok (Tools.envelope (.str "") []) ∧
    Main.dtwin_search (.obj []) = .ok (Main.envelope (.str "") []) ∧
    topKeys (Tools.envelope (.str "") []) = ["function"] ∧
    topKeys (Main.envelope (.str "") []) = ["functionName", "parameters"] ∧
    (["function"] : List String) ≠ ["functionName", "parameters"] :=
  ⟨rfl, rfl, rfl, rfl, by decide⟩

/-- **C4** (amended): each revision always wraps a successful result in its
own fixed envelope — the canonical `function`/`command`/`arguments` shape
in the tools revision, and the
`functionName`/`parameters`/`paramters`/`Parameters` shape in the main
revision — but the two shapes differ between the revisions. -/
theorem C4_amended :
    (∀ stv psv out, Tools.dtwin_search stv psv = .ok out →
      ∃ st ps, out = Tools.envelope st ps) ∧
    (∀ args out, Main.dtwin_search args = .ok out →
      ∃ st ps, out = Main.envelope st ps) ∧
    (∀ (st : PyVal) (ps : List PyVal),
      topKeys (Tools.envelope st ps) = ["function"]) ∧
    (∀ (st : PyVal) (ps : List PyVal),
      topKeys (Main.envelope st ps) = ["functionName", "parameters"]) := by
  refine ⟨?_, ?_, fun st ps => rfl, fun st ps => rfl⟩
  · intro stv psv out h
    obtain ⟨ps, rfl⟩ := tools_dtwin_search_ok_inv h
    exact ⟨_, ps, rfl⟩
  · intro args out h
    obtain ⟨a, ps, -, rfl⟩ := main_dtwin_search_ok_inv h
    exact ⟨_, ps, rfl⟩

/-- **C4** witness: the amended statement applied to the empty request in
both revisions. -/
theorem C4_witness :
    (∃ st ps, Tools.envelope (.str "") [] = Tools.envelope st ps) ∧
    (∃ st ps, Main.envelope (.str "") [] = Main.envelope st ps) :=
  ⟨C4_amended.1 PyVal.none (.list []) (Tools.envelope (.str "") []) rfl,
   C4_amended.2.1 (.obj []) (Main.envelope (.str "") []) rfl⟩

/-- **C5**: an input containing a filter whose parameter kind is not in the
fixed registry produces no payload at all (the call raises), and when such
a filter is the first failing one the raised error is the
`Unknown parameter enum` error carrying the rejected value; in both
revisions. -/
theorem C5_unknown_kind_aborts :
    (∀ (stv : PyVal) (xs : List PyVal),
      (∃ p ∈ xs, ∃ fields, p = PyVal.obj fields ∧
        keyIn (dictGet fields "parameter") Tools.SEARCH_PARAMETER_ENUM = false) →
      ∃ e, Tools.dtwin_search stv (.list xs) = .error e) ∧
    (∀ (stv : PyVal) (pre : List PyVal) (fields : List (String × PyVal))
        (rest : List PyVal),
      (∀ p ∈ pre, ∃ q, Tools.encodeOne p = .ok q) →
      keyIn (dictGet fields "parameter") Tools.SEARCH_PARAMETER_ENUM = false →
      Tools.dtwin_search stv (.list (pre ++ PyVal.obj fields :: rest)) =
        .error (.valueError ("Unknown parameter enum: " ++
          pyStr (dictGet fields "parameter")))) ∧
    (∀ (a : List (String × PyVal)) (xs : List PyVal),
      dictGet a "parameters" = .list xs →
      (∃ p ∈ xs, ∃ fields, p = PyVal.obj fields ∧
        keyIn (dictGet fields "parameter") Main.SEARCH_PARAMETER_ENUM = false) →
      ∃ e, Main.dtwin_search (.obj a) = .error e) ∧
    (∀ (a : List (String × PyVal)) (pre : List PyVal)
        (fields : List (String × PyVal)) (rest : List PyVal),
      dictGet a "parameters" = .list (pre ++ PyVal.obj fields :: rest) →
      (∀ p ∈ pre, ∃ q, Main.encodeOne p = .ok q) →
      keyIn (dictGet fields "parameter") Main.SEARCH_PARAMETER_ENUM = false →
      Main.dtwin_search (.obj a) =
        .error (.valueError ("Unknown parameter enum: " ++
          pyStr (dictGet fields "parameter")))) := by
  refine ⟨?_, ?_, ?_, ?_⟩
  · intro stv xs hex
    obtain ⟨e, he⟩ := tools_encodeParams_error_of_bad hex
    exact ⟨e, tools_dtwin_search_list_error he⟩
  · intro stv pre fields rest hpre hbad
    exact tools_dtwin_search_list_error
      (tools_encodeParams_first_error pre _ rest hpre
        (tools_encodeOne_badKind hbad))
  · intro a xs hget hex
    obtain ⟨e, he⟩ := main_encodeParams_error_of_bad hex
    exact ⟨e, main_dtwin_search_list_error hget he⟩
  · intro a pre fields rest hget hpre hbad
    exact main_dtwin_search_list_error hget
      (main_encodeParams_first_error pre _ rest hpre
        (main_encodeOne_badKind hbad))

/-- **C5** witness: the unknown kind `"Elevation"` as first (and only)
filter raises `Unknown parameter enum: Elevation` in both revisions. -/
theorem C5_witness :
    Tools.dtwin_search PyVal.none
      (.list [.obj [("parameter", .str "Elevation"), ("operator", .str "equal")]]) =
      .error (.valueError ("Unknown parameter enum: " ++
        pyStr (dictGet [("parameter", PyVal.str "Elevation"),
                        ("operator", PyVal.str "equal")] "parameter"))) ∧
    Main.dtwin_search (.obj [("parameters", .list [.obj
      [("parameter", .str "Elevation"), ("operator", .str "Equal")]])]) =
      .error (.valueError ("Unknown parameter enum: " ++
        pyStr (dictGet [("parameter", PyVal.str "Elevation"),
                        ("operator", PyVal.str "Equal")] "parameter"))) :=
  ⟨C5_unknown_kind_aborts.2.1 PyVal.none []
      [("parameter", PyVal.str "Elevation"), ("operator", PyVal.str "equal")] []
      (by intro p hp; cases hp) rfl,
   C5_unknown_kind_aborts.2.2.2
      [("parameters", PyVal.list [PyVal.obj
        [("parameter", PyVal.str "Elevation"), ("operator", PyVal.str "Equal")]])]
      []
      [("parameter", PyVal.str "Elevation"), ("operator", PyVal.str "Equal")] []
      rfl (by intro p hp; cases hp) rfl⟩

/-- **C6**: in both revisions, every name of the 7-entry parameter-kind
registry resolves to its documented code (EntityType 1, PropertySet 2,
Property 3, ClassificationParameterSet 4, ClassificationParameter 5,
Storey 6, Distance 7), and the mapping is injective — distinct names carry
distinct codes. -/
theorem C6_registry_codes :
    (∀ s1 s2 c, Tools.SEARCH_PARAMETER_ENUM.lookup s1 = some c →
      Tools.SEARCH_PARAMETER_ENUM.lookup s2 = some c → s1 = s2) ∧
    (∀ s1 s2 c, Main.SEARCH_PARAMETER_ENUM.lookup s1 = some c →
      Main.SEARCH_PARAMETER_ENUM.lookup s2 = some c → s1 = s2) ∧
    Tools.SEARCH_PARAMETER_ENUM.lookup "entityType" = some 1 ∧
    Tools.SEARCH_PARAMETER_ENUM.lookup "propertySet" = some 2 ∧
    Tools.SEARCH_PARAMETER_ENUM.lookup "property" = some 3 ∧
    Tools.SEARCH_PARAMETER_ENUM.lookup "classificationParameterSet" = some 4 ∧
    Tools.SEARCH_PARAMETER_ENUM.lookup "classificationParameter" = some 5 ∧
    Tools.SEARCH_PARAMETER_ENUM.lookup "storey" = some 6 ∧
    Tools.SEARCH_PARAMETER_ENUM.lookup "distance" = some 7 ∧
    Main.SEARCH_PARAMETER_ENUM.lookup "EntityType" = some 1 ∧
    Main.SEARCH_PARAMETER_ENUM.lookup "PropertySet" = some 2 ∧
    Main.SEARCH_PARAMETER_ENUM.lookup "Property" = some 3 ∧
    Main.SEARCH_PARAMETER_ENUM.lookup "ClassificationParameterSet" = some 4 ∧
    Main.SEARCH_PARAMETER_ENUM.lookup "ClassificationParameter" = some 5 ∧
    Main.SEARCH_PARAMETER_ENUM.lookup "Storey" = some 6 ∧
    Main.SEARCH_PARAMETER_ENUM.lookup "Distance" = some 7 ∧
    (Tools.SEARCH_PARAMETER_ENUM.map Prod.fst).Nodup ∧
    (Tools.SEARCH_PARAMETER_ENUM.map Prod.snd).Nodup ∧
    (Main.SEARCH_PARAMETER_ENUM.map Prod.fst).Nodup ∧
    (Main.SEARCH_PARAMETER_ENUM.map Prod.snd).Nodup :=
  ⟨fun s1 s2 c h1 h2 => lookup_inj (by decide) h1 h2,
   fun s1 s2 c h1 h2 => lookup_inj (by decide) h1 h2,
   rfl, rfl, rfl, rfl, rfl, rfl, rfl,
   rfl, rfl, rfl, rfl, rfl, rfl, rfl,
   by decide, by decide, by decide, by decide⟩

/-- **C6** witness: the injectivity statements applied to the resolutions
of `"storey"` (tools revision) and `"Storey"` (main revision) to code 6. -/
theorem C6_witness :
    ("storey" : String) = "storey" ∧ ("Storey" : String) = "Storey" :=
  ⟨C6_registry_codes.1 "storey" "storey" 6 rfl rfl,
   C6_registry_codes.2.1 "Storey" "Storey" 6 rfl rfl⟩

/-- **C7**: a call with the `parameters` field absent (tools revision:
argument `None`; main revision: key missing or `None`) behaves exactly like
a call with the empty list — no error, and the output filter list is
`[]`. -/
theorem C7_absent_parameters :
    (∀ stv : PyVal,
      Tools.dtwin_search stv PyVal.none = Tools.dtwin_search stv (.list []) ∧
      Tools.dtwin_search stv (.list []) =
        .ok (Tools.envelope (if pyTruthy stv then stv else .str "") []) ∧
      Tools.payloadParams
        (Tools.envelope (if pyTruthy stv then stv else .str "") []) =
        some []) ∧
    (∀ stv : PyVal,
      Main.dtwin_search (.obj [("searchTerm", stv)]) =
        Main.dtwin_search (.obj [("searchTerm", stv),
                                 ("parameters", .list [])]) ∧
      Main.dtwin_search (.obj [("searchTerm", stv),
                               ("parameters", PyVal.none)]) =
        Main.dtwin_search (.obj [("searchTerm", stv),
                                 ("parameters", .list [])]) ∧
      Main.dtwin_search (.obj [("searchTerm", stv)]) =
        .ok (Main.envelope (if pyTruthy stv then stv else .str "") []) ∧
      Main.payloadParams
        (Main.envelope (if pyTruthy stv then stv else .str "") []) =
        some []) :=
  ⟨fun _ => ⟨rfl, rfl, rfl⟩, fun _ => ⟨rfl, rfl, rfl, rfl⟩⟩

/-- **C8**: the normalizer `_lower_or_none` is total on `PyVal` (it is a
Lean function), maps every non-string — including a missing value, i.e.
`None` — to null, maps every string to its lowercase form, and is
idempotent on every input. -/
theorem C8_normalizer :
    (∀ s, _lower_or_none (.str s) = .str (pyLower s)) ∧
    _lower_or_none PyVal.none = PyVal.none ∧
    (∀ n, _lower_or_none (.int n) = PyVal.none) ∧
    (∀ b, _lower_or_none (.bool b) = PyVal.none) ∧
    (∀ xs, _lower_or_none (.list xs) = PyVal.none) ∧
    (∀ fs, _lower_or_none (.obj fs) = PyVal.none) ∧
    (∀ k, _lower_or_none (dictGet [] k) = PyVal.none) ∧
    (∀ v, _lower_or_none (_lower_or_none v) = _lower_or_none v) := by
  refine ⟨fun s => rfl, rfl, fun n => rfl, fun b => rfl, fun xs => rfl,
    fun fs => rfl, fun k => rfl, ?_⟩
  intro v
  cases v with
  | str s =>
    show PyVal.str (pyLower (pyLower s)) = .str (pyLower s)
    rw [pyLower_pyLower]
  | none => rfl
  | int n => rfl
  | bool b => rfl
  | list xs => rfl
  | obj fs => rfl

/-- **C9**: invariant of every successful call, in both revisions: the
payload holds exactly one coded filter per input filter, in input order
(the i-th output is the encoding of the i-th input), and each coded filter
has a parameter code in 1..7, an operator code in `{1, 2}`, and key/value
each null or a fully-lowercase string. -/
theorem C9_output_invariant :
    (∀ (stv : PyVal) (xs : List PyVal) (out : PyVal),
      Tools.dtwin_search stv (.list xs) = .ok out →
      ∃ ps, Tools.payloadParams out = some ps ∧
        ps.length = xs.length ∧
        (∀ q ∈ ps, Tools.goodOutParam q) ∧
        ∀ i (hi : i < xs.length) (hj : i < ps.length),
          Tools.encodeOne (xs.get ⟨i, hi⟩) = .ok (ps.get ⟨i, hj⟩)) ∧
    (∀ (a : List (String × PyVal)) (xs : List PyVal) (out : PyVal),
      dictGet a "parameters" = .list xs →
      Main.dtwin_search (.obj a) = .ok out →
      ∃ ps, Main.payloadParams out = some ps ∧
        ps.length = xs.length ∧
        (∀ q ∈ ps, Main.goodOutParam q) ∧
        ∀ i (hi : i < xs.length) (hj : i < ps.length),
          Main.encodeOne (xs.get ⟨i, hi⟩) = .ok (ps.get ⟨i, hj⟩)) := by
  constructor
  · intro stv xs out h
    obtain ⟨ps, hps, rfl⟩ := tools_dtwin_search_list_ok_inv h
    obtain ⟨hlen, hpt⟩ := tools_encodeParams_ok_pointwise hps
    exact ⟨ps, rfl, hlen, tools_encodeParams_ok_good hps, hpt⟩
  · intro a xs out hget h
    obtain ⟨ps, hps, rfl⟩ := main_dtwin_search_list_ok_inv hget h
    obtain ⟨hlen, hpt⟩ := main_encodeParams_ok_pointwise hps
    exact ⟨ps, rfl, hlen, main_encodeParams_ok_good hps, hpt⟩

/-- **C9** witness: the invariant applied to one concrete
`property`/`equal`/`Color`/`Red` filter in each revision. -/
theorem C9_witness :
    (∃ ps, Tools.payloadParams (Tools.envelope (.str "wall")
        [.obj [("parameter", .int 3), ("operator", .int 1),
               ("key", .str "color"), ("value", .str "red")]]) = some ps ∧
      ps.length = ([PyVal.obj
        [("parameter", .str "property"), ("operator", .str "equal"),
         ("key", .str "Color"), ("value", .str "Red")]] : List PyVal).length ∧
      (∀ q ∈ ps, Tools.goodOutParam q) ∧
      ∀ i (hi : i < ([PyVal.obj
          [("parameter", .str "property"), ("operator", .str "equal"),
           ("key", .str "Color"), ("value", .str "Red")]] : List PyVal).length)
        (hj : i < ps.length),
        Tools.encodeOne (([PyVal.obj
          [("parameter", .str "property"), ("operator", .str "equal"),
           ("key", .str "Color"), ("value", .str "Red")]] : List PyVal).get
            ⟨i, hi⟩) = .ok (ps.get ⟨i, hj⟩)) ∧
    (∃ ps, Main.payloadParams (Main.envelope (.str "wall")
        [.obj [("Parameter", .int 3), ("Operator", .int 1),
               ("Key", .str "color"), ("Value", .str "red")]]) = some ps ∧
      ps.length = ([PyVal.obj
        [("parameter", .str "Property"), ("operator", .str "Equal"),
         ("key", .str "Color"), ("value", .str "Red")]] : List PyVal).length ∧
      (∀ q ∈ ps, Main.goodOutParam q) ∧
      ∀ i (hi : i < ([PyVal.obj
          [("parameter", .str "Property"), ("operator", .str "Equal"),
           ("key", .str "Color"), ("value", .str "Red")]] : List PyVal).length)
        (hj : i < ps.length),
        Main.encodeOne (([PyVal.obj
          [("parameter", .str "Property"), ("operator", .str "Equal"),
           ("key", .str "Color"), ("value", .str "Red")]] : List PyVal).get
            ⟨i, hi⟩) = .ok (ps.get ⟨i, hj⟩)) :=
  ⟨C9_output_invariant.1 (.str "wall")
      [PyVal.obj [("parameter", .str "property"), ("operator", .str "equal"),
                  ("key", .str "Color"), ("value", .str "Red")]]
      (Tools.envelope (.str "wall")
        [.obj [("parameter", .int 3), ("operator", .int 1),
               ("key", .str "color"), ("value", .str "red")]]) rfl,
   C9_output_invariant.2
      [("searchTerm", PyVal.str "wall"),
       ("parameters", PyVal.list [PyVal.obj
         [("parameter", .str "Property"), ("operator", .str "Equal"),
          ("key", .str "Color"), ("value", .str "Red")]])]
      [PyVal.obj [("parameter", .str "Property"), ("operator", .str "Equal"),
                  ("key", .str "Color"), ("value", .str "Red")]]
      (Main.envelope (.str "wall")
        [.obj [("Parameter", .int 3), ("Operator", .int 1),
               ("Key", .str "color"), ("Value", .str "red")]]) rfl rfl⟩

/-- **C10**: in both revisions, a filter's encoding depends only on its
`parameter`, `operator`, `key` and `value` fields — any extra field is
ignored, so two filters agreeing on those four fields encode identically —
and every successful encoding is an object with exactly the four output
fields (`parameter`/`operator`/`key`/`value` in the tools revision,
`Parameter`/`Operator`/`Key`/`Value` in the main revision). -/
theorem C10_four_fields :
    (∀ f1 f2 : List (String × PyVal),
      dictGet f1 "parameter" = dictGet f2 "parameter" →
      dictGet f1 "operator" = dictGet f2 "operator" →
      dictGet f1 "key" = dictGet f2 "key" →
      dictGet f1 "value" = dictGet f2 "value" →
      Tools.encodeOne (.obj f1) = Tools.encodeOne (.obj f2)) ∧
    (∀ f1 f2 : List (String × PyVal),
      dictGet f1 "parameter" = dictGet f2 "parameter" →
      dictGet f1 "operator" = dictGet f2 "operator" →
      dictGet f1 "key" = dictGet f2 "key" →
      dictGet f1 "value" = dictGet f2 "value" →
      Main.encodeOne (.obj f1) = Main.encodeOne (.obj f2)) ∧
    (∀ p q, Tools.encodeOne p = .ok q →
      topKeys q = ["parameter", "operator", "key", "value"]) ∧
    (∀ p q, Main.encodeOne p = .ok q →
      topKeys q = ["Parameter", "Operator", "Key", "Value"]) := by
  refine ⟨fun f1 f2 hp ho hk hv => tools_encodeOne_congr hp ho hk hv,
    fun f1 f2 hp ho hk hv => main_encodeOne_congr hp ho hk hv, ?_, ?_⟩
  · intro p q h
    obtain ⟨pc, oc, kv, vv, rfl, -⟩ := tools_encodeOne_ok_good h
    rfl
  · intro p q h
    obtain ⟨pc, oc, kv, vv, rfl, -⟩ := main_encodeOne_ok_good h
    rfl

/-- **C10** witness: an extra `comment` field changes nothing, and a
concrete successful encoding carries exactly the four output fields. -/
theorem C10_witness :
    Tools.encodeOne (.obj [("parameter", .str "distance"),
                           ("operator", .str "equal"),
                           ("comment", .str "extra field")]) =
      Tools.encodeOne (.obj [("parameter", .str "distance"),
                             ("operator", .str "equal")]) ∧
    Main.encodeOne (.obj [("parameter", .str "Distance"),
                          ("operator", .str "Equal"),
                          ("comment", .str "extra field")]) =
      Main.encodeOne (.obj [("parameter", .str "Distance"),
                            ("operator", .str "Equal")]) ∧
    topKeys (PyVal.obj [("parameter", PyVal.int 7), ("operator", PyVal.int 1),
                        ("key", PyVal.none), ("value", PyVal.none)]) =
      ["parameter", "operator", "key", "value"] ∧
    topKeys (PyVal.obj [("Parameter", PyVal.int 7), ("Operator", PyVal.int 1),
                        ("Key", PyVal.none), ("Value", PyVal.none)]) =
      ["Parameter", "Operator", "Key", "Value"] :=
  ⟨C10_four_fields.1 _ _ rfl rfl rfl rfl,
   C10_four_fields.2.1 _ _ rfl rfl rfl rfl,
   C10_four_fields.2.2.1
     (.obj [("parameter", .str "distance"), ("operator", .str "equal")])
     (PyVal.obj [("parameter", PyVal.int 7), ("operator", PyVal.int 1),
                 ("key", PyVal.none), ("value", PyVal.none)]) rfl,
   C10_four_fields.2.2.2
     (.obj [("parameter", .str "Distance"), ("operator", .str "Equal")])
     (PyVal.obj [("Parameter", PyVal.int 7), ("Operator", PyVal.int 1),
                 ("Key", PyVal.none), ("Value", PyVal.none)]) rfl⟩
